import Mathlib

/-!
Verification of the ELU binary-model importer (`import_elu.py`).

The definitions below are a shallow embedding of the decoder fragments the
claims are about: the skeletal-name classifier `elu_to_blender_name`, the
byte cursor with little-endian reads, the header validation of
`load_from_path`, and the per-record fragments of `load_elu_mesh_a`,
`load_elu_mesh_b` and `load_elu_texture`.  Machine floats that only flow
through the claims structurally (UV coordinates, bone weights, vertex
positions) are modelled as rationals; byte-level layout claims are modelled
on lists of bytes (`Nat` values) with explicit little-endian assembly.
-/

/-! ## Name classifier (`elu_to_blender_name`, import_elu.py lines 79-107)

The source matches names against the anchored Python regex

  Bip\d[2,]\s*(?P<side>L|R)?\s*(?P<name>[a-zA-Z]+)?(?P<index>\d+)?(?P<nub>[a-zA-Z]+)?$

(with a leading caret anchor, and [2,] written with braces in the source)
via `re.subn`.  The matcher below implements exactly this pattern with
Python's backtracking semantics: every greedy quantifier tries its longest
candidate first and falls back to shorter ones, optional groups try the
present alternative first, and the end anchor accepts either the end of the
string or the position just before a single final newline (Python `$`).
Because the pattern is anchored at position 0 and cannot match the empty
string, `re.subn` performs at most one substitution, replacing the matched
span and keeping the (at most one-newline) remainder. -/

/-- ASCII decimal digit, Python `\d` restricted to ASCII input. -/
def isDigitA (c : Char) : Bool := '0' ≤ c && c ≤ '9'

/-- ASCII letter, the character class `[a-zA-Z]`. -/
def isAlphaA (c : Char) : Bool :=
  ('a' ≤ c && c ≤ 'z') || ('A' ≤ c && c ≤ 'Z')

/-- Python `\s` restricted to ASCII input (the names are ASCII-decoded):
space, tab, newline, carriage return, vertical tab, form feed, and the
file/group/record/unit separators 0x1c-0x1f. -/
def isSpaceA (c : Char) : Bool :=
  c = ' ' || c = '\t' || c = '\n' || c = '\r' || c = '\x0b' || c = '\x0c' ||
  c = '\x1c' || c = '\x1d' || c = '\x1e' || c = '\x1f'

/-- Length of the longest run of characters satisfying `p` at the head. -/
def leadRun (p : Char → Bool) : List Char → Nat
  | [] => 0
  | c :: cs => if p c then leadRun p cs + 1 else 0

/-- Candidates `descRange hi lo = [hi, hi-1, ..., lo]` (empty when `hi < lo`):
the candidate lengths of a greedy quantifier in preference order. -/
def descRange (hi lo : Nat) : List Nat :=
  (List.range (hi + 1 - lo)).map (fun i => hi - i)

/-- The captures of one match of the Bip pattern, plus the unmatched
remainder of the string (`[]` or a single newline). -/
structure BipMatch where
  side : Option Char
  name : Option (List Char)
  index : Option (List Char)
  nub : Option (List Char)
  rest : List Char
deriving DecidableEq

/-- End anchor `$`: end of input, or just before a single final newline. -/
def bipEnd (sd : Option Char) (nm idx nb : Option (List Char))
    (l : List Char) : Option BipMatch :=
  if l = [] ∨ l = ['\n'] then some ⟨sd, nm, idx, nb, l⟩ else none

/-- Optional greedy group `(?P<nub>[a-zA-Z]+)?` followed by `$`. -/
def bipNub (sd : Option Char) (nm idx : Option (List Char))
    (l : List Char) : Option BipMatch :=
  ((descRange (leadRun isAlphaA l) 1).findSome? fun k =>
    bipEnd sd nm idx (some (l.take k)) (l.drop k)) <|>
  bipEnd sd nm idx none l

/-- Optional greedy group `(?P<index>\d+)?`. -/
def bipIndex (sd : Option Char) (nm : Option (List Char))
    (l : List Char) : Option BipMatch :=
  ((descRange (leadRun isDigitA l) 1).findSome? fun k =>
    bipNub sd nm (some (l.take k)) (l.drop k)) <|>
  bipNub sd nm none l

/-- Optional greedy group `(?P<name>[a-zA-Z]+)?`. -/
def bipName (sd : Option Char) (l : List Char) : Option BipMatch :=
  ((descRange (leadRun isAlphaA l) 1).findSome? fun k =>
    bipIndex sd (some (l.take k)) (l.drop k)) <|>
  bipIndex sd none l

/-- Greedy `\s*` between the side letter and the body-part name. -/
def bipSpace2 (sd : Option Char) (l : List Char) : Option BipMatch :=
  (descRange (leadRun isSpaceA l) 0).findSome? fun k => bipName sd (l.drop k)

/-- Optional alternation `(?P<side>L|R)?`: try the letter first, then skip. -/
def bipSide (l : List Char) : Option BipMatch :=
  (match l with
   | c :: cs => if c = 'L' ∨ c = 'R' then bipSpace2 (some c) cs else none
   | [] => none) <|>
  bipSpace2 none l

/-- Greedy `\s*` between the digit run and the side letter. -/
def bipSpace1 (l : List Char) : Option BipMatch :=
  (descRange (leadRun isSpaceA l) 0).findSome? fun k => bipSide (l.drop k)

/-- Greedy `\d` repeated at least twice, directly after the `Bip` literal. -/
def bipDigits (l : List Char) : Option BipMatch :=
  let r := leadRun isDigitA l
  if 2 ≤ r then (descRange r 2).findSome? fun k => bipSpace1 (l.drop k) else none

/-- Whole pattern: the literal `Bip` at position 0, then the rest. -/
def matchBip (l : List Char) : Option BipMatch :=
  match l with
  | 'B' :: 'i' :: 'p' :: cs => bipDigits cs
  | _ => none

/-- Python string format spec `0>3` applied to the captured index string:
pad on the left with the character 0 up to width 3. -/
def padLeft3 (s : List Char) : List Char :=
  if 3 ≤ s.length then s else List.replicate (3 - s.length) '0' ++ s

/-- Python `int` on the (all-digit) captured index string. -/
def digitsToNat (s : List Char) : Nat :=
  s.foldl (fun a c => a * 10 + (c.toNat - '0'.toNat)) 0

/-- The numeric-suffix fragment of the replacement template
(import_elu.py lines 98-104): a multi-digit capture with value below ten is
emitted as the characters dot-one followed by the capture padded to three
digits; otherwise a capture with positive value is emitted as a dot followed
by the capture padded to three digits; otherwise nothing. -/
def indexSuffix (idx : List Char) : List Char :=
  if 1 < idx.length ∧ digitsToNat idx < 10 then
    '.' :: '1' :: padLeft3 idx
  else if 0 < digitsToNat idx then
    '.' :: padLeft3 idx
  else
    []

/-- The replacement string built by `blend` (import_elu.py lines 86-105):
base from the name capture, then the nub, side and index fragments. -/
def blendStr (m : BipMatch) : List Char :=
  (match m.name with
   | some nm => "ZBip_".data ++ nm
   | none => "ZBip_Root".data) ++
  (match m.nub with
   | some nb => '_' :: nb
   | none => []) ++
  (match m.side with
   | some c => ['.', c]
   | none => []) ++
  (match m.index with
   | some idx => indexSuffix idx
   | none => [])

/-- Name classification `elu_to_blender_name` (import_elu.py lines 85-107): `re.subn` of the
anchored Bip pattern; at most one substitution is possible, replacing the
matched span (everything except a possible final newline) and returning the
new string together with the number of substitutions made. -/
def elu_to_blender_name (s : String) : String × Nat :=
  match matchBip s.data with
  | some m => (⟨blendStr m ++ m.rest⟩, 1)
  | none => (s, 0)


/-! ## Byte cursor and little-endian reads (spec 4.1; struct.unpack usage) -/

/-- A sequential reader over an in-memory byte buffer: the bytes and the
current offset.  Mirrors the `io` file object the decoder reads from. -/
structure Cursor where
  data : List Nat
  pos : Nat
deriving DecidableEq

/-- Take exactly `n` bytes from the front of a buffer, or fail when fewer
remain. -/
def readN : Nat → List Nat → Option (List Nat × List Nat)
  | 0, bs => some ([], bs)
  | _ + 1, [] => none
  | n + 1, b :: bs =>
    match readN n bs with
    | some (xs, tail) => some (b :: xs, tail)
    | none => none

/-- Read of `n` bytes followed by use of all of them: yields the `n` bytes at the
current position and the advanced cursor, or fails when fewer than `n`
bytes remain (in the source a short read makes `struct.unpack` raise). -/
def readExact (c : Cursor) (n : Nat) : Option (List Nat × Cursor) :=
  match readN n (c.data.drop c.pos) with
  | some (xs, _) => some (xs, ⟨c.data, c.pos + n⟩)
  | none => none

/-- Python `seek(n, SEEK_CUR)`: advances the offset without reading. -/
def seekCur (c : Cursor) (n : Nat) : Cursor := ⟨c.data, c.pos + n⟩

/-- Little-endian 16-bit value from two bytes. -/
def u16le (b0 b1 : Nat) : Nat := b0 + 256 * b1

/-- Little-endian 32-bit value from four bytes. -/
def u32le (b0 b1 b2 b3 : Nat) : Nat :=
  b0 + 256 * b1 + 65536 * b2 + 16777216 * b3

/-- Little-endian 16-bit value of a 2-byte list. -/
def u16leList (bs : List Nat) : Nat :=
  match bs with
  | [b0, b1] => u16le b0 b1
  | _ => 0

/-- Little-endian 32-bit value of a 4-byte list. -/
def u32leList (bs : List Nat) : Nat :=
  match bs with
  | [b0, b1, b2, b3] => u32le b0 b1 b2 b3
  | _ => 0

/-- Unpack of one little-endian u16 read from the cursor. -/
def readU16 (c : Cursor) : Option (Nat × Cursor) :=
  match readExact c 2 with
  | some (bs, c') => some (u16leList bs, c')
  | none => none

/-- Unpack of one little-endian u32 read from the cursor. -/
def readU32 (c : Cursor) : Option (Nat × Cursor) :=
  match readExact c 4 with
  | some (bs, c') => some (u32leList bs, c')
  | none => none

/-- The four little-endian bytes of a 32-bit value. -/
def natToBytes4 (n : Nat) : List Nat :=
  [n % 256, n / 256 % 256, n / 65536 % 256, n / 16777216 % 256]

/-! ## Header validation (`load_from_path`, import_elu.py lines 986-1004) -/

/-- The magic constant `ELU_MAGIC` (import_elu.py line 39). -/
def ELU_MAGIC : Nat := 0x0107F060

/-- The version table `ELU_VERSIONS` (import_elu.py lines 42-61): the closed set of
recognized format revisions, in source order. -/
def ELU_VERSIONS : List Nat :=
  [0x11,
   0x5001, 0x5002, 0x5003, 0x5004, 0x5005, 0x5006, 0x5007,
   0x5008, 0x500A, 0x500B, 0x500C, 0x500E, 0x500F, 0x5010, 0x5011]

/-- Outcome of the header check in `load_from_path`: either the single
rejection result (the source logs one undifferentiated message and returns
the CANCELLED set) or continuation into `load_elu` with the version. -/
inductive HeaderOutcome where
  | CANCELLED : HeaderOutcome
  | proceed : Nat → HeaderOutcome
deriving DecidableEq

/-- The header step of `load_from_path` (import_elu.py lines 986-1000):
read 8 bytes, unpack magic and version as little-endian u32, reject unless
the magic matches and the version is a member of `ELU_VERSIONS`.  The
second component is the number of bytes consumed when the decision is
made; failure (`none`) is the `struct.error` on a short file. -/
def load_from_path_header (data : List Nat) : Option (HeaderOutcome × Nat) :=
  match data with
  | b0 :: b1 :: b2 :: b3 :: b4 :: b5 :: b6 :: b7 :: _ =>
    let magic := u32le b0 b1 b2 b3
    let version := u32le b4 b5 b6 b7
    if magic ≠ ELU_MAGIC ∨ version ∉ ELU_VERSIONS then
      some (HeaderOutcome.CANCELLED, 8)
    else
      some (HeaderOutcome.proceed version, 8)
  | _ => none


/-! ## Format A face record (`load_elu_mesh_a`, import_elu.py lines 173-198) -/

/-- Per-face-vertex UV read (import_elu.py line 186): keep u, flip v to
one minus v, drop the third component w. -/
def flip_uv (u v _w : ℚ) : ℚ × ℚ := (u, 1 - v)

/-- One Format A face record (import_elu.py lines 173-191): the three
stored u32 vertex indices and the three stored UV triples; result is the
emitted face index triple and the emitted UV pair triple.  When the third
stored index is 0 both triples are rotated to start from the third entry;
otherwise both are emitted in stored order. -/
def load_face_a (i1 i2 i3 : Nat) (uv1 uv2 uv3 : ℚ × ℚ × ℚ) :
    (Nat × Nat × Nat) × ((ℚ × ℚ) × (ℚ × ℚ) × (ℚ × ℚ)) :=
  let f1 := flip_uv uv1.1 uv1.2.1 uv1.2.2
  let f2 := flip_uv uv2.1 uv2.2.1 uv2.2.2
  let f3 := flip_uv uv3.1 uv3.2.1 uv3.2.2
  if i3 = 0 then ((i3, i1, i2), (f3, f1, f2))
  else ((i1, i2, i3), (f1, f2, f3))

/-! ## Format A bone-influence group (`load_elu_mesh_a`, lines 224-253)

Per group the source reads 4 fixed-length bone names, keeping the
classified names that are non-empty, and 4 bone weights, keeping the ones
strictly greater than 0; it then pairs the j-th kept weight with
`bone_names[j]`.  `pair_weights_go` mirrors that loop, with `none` standing
for the IndexError Python raises when `j` runs past the end of the kept
name list. -/

/-- The kept bone names of one group: each raw name is classified with
`elu_to_blender_name` and kept when the classified name is non-empty. -/
def bone_names_of (raw : List String) : List String :=
  raw.filterMap fun n =>
    let bn := (elu_to_blender_name n).1
    if 0 < bn.length then some bn else none

/-- The kept bone weights of one group: the weights strictly above 0,
in stored order. -/
def positive_weights (ws : List ℚ) : List ℚ := ws.filter (fun w => 0 < w)

/-- The pairing loop `for j, bone_weight in enumerate(bone_weights)`:
pairs the j-th kept weight with the j-th kept name, failing like the
source's `bone_names[j]` when the index is out of bounds. -/
def pair_weights_go : Nat → List String → List ℚ → Option (List (String × ℚ))
  | _, _, [] => some []
  | j, bn, w :: ws =>
    match bn[j]? with
    | none => none
    | some n => (pair_weights_go (j + 1) bn ws).map (fun r => (n, w) :: r)

/-- One Format A bone-influence group (import_elu.py lines 224-253),
reduced to the claim-relevant data: the kept names, the kept weights, and
the name-weight pairing the loop builds (or `none` on IndexError). -/
def load_bone_group_a (raw : List String) (ws : List ℚ) :
    Option (List (String × ℚ)) :=
  pair_weights_go 0 (bone_names_of raw) (positive_weights ws)


/-! ## Format B mesh construction (`load_elu_mesh_b`, lines 652-715) -/

/-- The geometry handed to `from_pydata` plus the bone-placeholder flag
stored in `bip_settings.is_bip`. -/
structure MeshDataB where
  verts : List (ℚ × ℚ × ℚ)
  edges : List (Nat × Nat)
  faces : List (List Nat)
  is_bip : Bool
deriving DecidableEq

/-- The 8 placeholder corner vertices (import_elu.py lines 686-695). -/
def cube_verts : List (ℚ × ℚ × ℚ) :=
  [(-1/2, 1/2, -1/2), (-1/2, 1/2, 1/2), (1/2, 1/2, 1/2), (1/2, 1/2, -1/2),
   (-1/2, -1/2, -1/2), (-1/2, -1/2, 1/2), (1/2, -1/2, 1/2), (1/2, -1/2, -1/2)]

/-- The 12 placeholder wireframe edges (import_elu.py lines 696-709). -/
def cube_edges : List (Nat × Nat) :=
  [(0, 1), (1, 2), (2, 3), (3, 0),
   (4, 5), (5, 6), (6, 7), (7, 4),
   (0, 4), (1, 5), (2, 6), (3, 7)]

/-- The mesh-construction decision of `load_elu_mesh_b` (lines 655-711),
for a freshly named mesh: when both the decoded position pool and the
decoded face list are non-empty the real geometry is built with
`is_bip = False` (vertices are the pool, no edges, faces are each face's
position-index triple); otherwise the fixed unit-cube wireframe
placeholder is built with `is_bip = True`. -/
def build_mesh_b (vertex_positions : List (ℚ × ℚ × ℚ))
    (faces : List (List Nat × List Nat × List Nat)) : MeshDataB :=
  if 0 < vertex_positions.length ∧ 0 < faces.length then
    ⟨vertex_positions, [], faces.map (fun f => f.1), false⟩
  else
    ⟨cube_verts, cube_edges, [], true⟩

/-! ## Format B second reserved-count recovery (lines 476-486) -/

/-- The reserved-count segment directly after the first reserved pool
(import_elu.py lines 476-486): read a u32 count; when the version is
above 0x500E and the count is non-zero, log a warning and force the count
to 0 so the following skip loop runs zero times; otherwise skip the count
times 12 bytes.  The Bool records whether the warning was logged. -/
def skip_second_reserved (version : Nat) (c : Cursor) :
    Option (Cursor × Bool) :=
  match readU32 c with
  | none => none
  | some (cnt, c1) =>
    if 0x500E < version ∧ cnt ≠ 0 then some (seekCur c1 (12 * 0), true)
    else some (seekCur c1 (12 * cnt), false)


/-! ## Format B indexed-vertex table entry (lines 582-610) -/

/-- One entry of the indexed-vertex table (import_elu.py lines 588-610).
The result tuple is always appended in the order (position, normal,
texcoord, reserved0, reserved1); which packed field each component comes
from depends on the version exactly as in the source's three branches. -/
def read_vertex_index_entry (version : Nat) (c : Cursor) :
    Option ((Nat × Nat × Nat × Nat × Nat) × Cursor) :=
  if version < 0x500E then
    match readU16 c with
    | none => none
    | some (p, c1) =>
      match readU16 c1 with
      | none => none
      | some (n, c2) =>
        match readU16 c2 with
        | none => none
        | some (t, c3) =>
          match readU16 c3 with
          | none => none
          | some (r0, c4) =>
            match readU16 c4 with
            | none => none
            | some (r1, c5) => some ((p, n, t, r0, r1), c5)
  else if version = 0x500E then
    match readU16 c with
    | none => none
    | some (p, c1) =>
      match readU16 c1 with
      | none => none
      | some (n, c2) =>
        match readU32 c2 with
        | none => none
        | some (r1, c3) =>
          match readU16 c3 with
          | none => none
          | some (r0, c4) =>
            match readU16 c4 with
            | none => none
            | some (t, c5) => some ((p, n, t, r0, r1), c5)
  else
    match readU16 c with
    | none => none
    | some (p, c1) =>
      match readU16 c1 with
      | none => none
      | some (n, c2) =>
        match readU32 c2 with
        | none => none
        | some (t, c3) =>
          match readU16 c3 with
          | none => none
          | some (r0, c4) =>
            match readU16 c4 with
            | none => none
            | some (r1, c5) => some ((p, n, t, r0, r1), c5)

/-! ## Format B blend-vertex bone-influence table (lines 540-565)

The source builds a Python dict of dicts: bone index to bone weight to the
list of affected blend-vertex indices, appending a vertex index only when
it is not already in the bucket.  Python dicts preserve insertion order, so
they are modelled as association lists with append-at-end insertion. -/

/-- The (bone index, (weight, vertex list) list) association list standing
for the `bone_influences` dict of dicts. -/
abbrev Influences := List (Nat × List (ℚ × List Nat))

/-- Python `if i not in bucket: bucket.append(i)`. -/
def insertIfAbsent (l : List Nat) (i : Nat) : List Nat :=
  if i ∈ l then l else l ++ [i]

/-- Update (or create at the end, like a Python dict insertion) the bucket
of weight `w` inside one bone's weight table. -/
def updWeight (wl : List (ℚ × List Nat)) (w : ℚ) (i : Nat) :
    List (ℚ × List Nat) :=
  match wl with
  | [] => [(w, [i])]
  | (w', l) :: tl =>
    if w' = w then (w', insertIfAbsent l i) :: tl
    else (w', l) :: updWeight tl w i

/-- Update (or create at the end) the weight table of bone `b`. -/
def updBone (m : Influences) (b : Nat) (w : ℚ) (i : Nat) : Influences :=
  match m with
  | [] => [(b, [(w, [i])])]
  | (b', wl) :: tl =>
    if b' = b then (b', updWeight wl w i) :: tl
    else (b', wl) :: updBone tl b w i

/-- One influence of blend vertex `i` (import_elu.py lines 555-565): the
2 skipped bytes are elided; only a weight strictly above 0 is recorded. -/
def record_influence (m : Influences) (i : Nat) (inf : Nat × ℚ) :
    Influences :=
  if 0 < inf.2 then updBone m inf.1 inf.2 i else m

/-- All influences of blend vertex `i`, in stored order. -/
def record_vertex (m : Influences) (i : Nat) (infs : List (Nat × ℚ)) :
    Influences :=
  infs.foldl (fun acc inf => record_influence acc i inf) m

/-- The loop over blend vertices, carrying the running vertex index
exactly like `for i in range(blend_vertex_count)`. -/
def build_influences_go (i : Nat) (m : Influences) :
    List (List (Nat × ℚ)) → Influences
  | [] => m
  | v :: vs => build_influences_go (i + 1) (record_vertex m i v) vs

/-- The whole blend-vertex table loop (import_elu.py lines 550-565): the
i-th table entry lists the influences of blend vertex i. -/
def build_bone_influences (table : List (List (Nat × ℚ))) : Influences :=
  build_influences_go 0 [] table


/-! ## Format A texture record (`load_elu_texture`, lines 758-775) -/

/-- The constant `NAME_LENGTH` (import_elu.py line 64). -/
def NAME_LENGTH : Nat := 40

/-- The constant `PATH_LENGTH` (import_elu.py line 67). -/
def PATH_LENGTH : Nat := 256

/-- The byte length of each of the two texture names
(import_elu.py lines 763-768): `NAME_LENGTH` below version 0x5006,
`PATH_LENGTH` from 0x5006 on. -/
def texNameLen (version : Nat) : Nat :=
  if version < 0x5006 then NAME_LENGTH else PATH_LENGTH

/-- The byte consumption of `load_elu_texture` (lines 758-775): two names
of `texNameLen version` bytes each are read; only the first name's bytes
participate in the result (the texture is keyed and loaded from `name0`),
while the second name's bytes are consumed and dropped. -/
def load_elu_texture (version : Nat) (c : Cursor) :
    Option (List Nat × Cursor) :=
  match readExact c (texNameLen version) with
  | none => none
  | some (name0, c1) =>
    match readExact c1 (texNameLen version) with
    | none => none
    | some (_name1, c2) => some (name0, c2)

/-! ## Helper lemmas -/

/-- Reading `n` bytes succeeds exactly as the split into take and drop when enough
bytes remain. -/
theorem readN_eq_of_le (n : Nat) (l : List Nat) (h : n ≤ l.length) :
    readN n l = some (l.take n, l.drop n) := by
  induction n generalizing l with
  | zero => simp [readN]
  | succ k ih =>
    cases l with
    | nil => simp at h
    | cons b bs =>
      rw [readN, ih bs (by simpa using h)]
      rfl

/-- Exact reads succeed exactly as the slice of the buffer when enough
bytes remain past the current position. -/
theorem readExact_eq_of_le (c : Cursor) (n : Nat)
    (h : c.pos + n ≤ c.data.length) :
    readExact c n =
      some ((c.data.drop c.pos).take n, ⟨c.data, c.pos + n⟩) := by
  rw [readExact, readN_eq_of_le n (c.data.drop c.pos) (by simp; omega)]

/-- Little-endian reassembly of the four bytes of a 32-bit value. -/
theorem u32le_natToBytes4 (n : Nat) (h : n < 4294967296) :
    u32le (n % 256) (n / 256 % 256) (n / 65536 % 256) (n / 16777216 % 256) = n := by
  unfold u32le
  omega

/-! ## Claim C1 -/

/-- Claim C1, counterexample: the source's header check returns the same
undifferentiated CANCELLED result (with the same 8 consumed bytes) for an
unsupported version with a good magic and for a bad magic with a supported
version; there is no distinct UnsupportedVersion versus BadMagic outcome
in the code. -/
theorem c1_counterexample :
    load_from_path_header ([0x60, 0xF0, 0x07, 0x01] ++ natToBytes4 0x5009) =
      some (HeaderOutcome.CANCELLED, 8) ∧
    load_from_path_header (natToBytes4 0 ++ natToBytes4 0x11) =
      some (HeaderOutcome.CANCELLED, 8) ∧
    load_from_path_header ([0x60, 0xF0, 0x07, 0x01] ++ natToBytes4 0x5009) =
      load_from_path_header (natToBytes4 0 ++ natToBytes4 0x11) := by
  decide

/-- Claim C1 (amended): header validation accepts exactly the 16 enumerated
version tags together with the magic 0x0107F060, and rejects every other
u32 version value as well as any non-matching magic with the single
undifferentiated CANCELLED result; in every case the decision is made
having consumed exactly the 8 header bytes, regardless of what follows. -/
theorem c1_header_validation (magic version : Nat) (rest : List Nat)
    (hm : magic < 4294967296) (hv : version < 4294967296) :
    load_from_path_header (natToBytes4 magic ++ natToBytes4 version ++ rest) =
      some ((if magic = ELU_MAGIC ∧ version ∈ ELU_VERSIONS
             then HeaderOutcome.proceed version
             else HeaderOutcome.CANCELLED), 8) ∧
    ELU_VERSIONS =
      [0x11, 0x5001, 0x5002, 0x5003, 0x5004, 0x5005, 0x5006, 0x5007,
       0x5008, 0x500A, 0x500B, 0x500C, 0x500E, 0x500F, 0x5010, 0x5011] ∧
    ELU_VERSIONS.length = 16 ∧ ELU_VERSIONS.Nodup := by
  refine ⟨?_, rfl, rfl, by decide⟩
  show load_from_path_header
      (magic % 256 :: magic / 256 % 256 :: magic / 65536 % 256 ::
       magic / 16777216 % 256 :: version % 256 :: version / 256 % 256 ::
       version / 65536 % 256 :: version / 16777216 % 256 :: rest) = _
  simp only [load_from_path_header]
  rw [u32le_natToBytes4 magic hm, u32le_natToBytes4 version hv]
  by_cases h : magic = ELU_MAGIC ∧ version ∈ ELU_VERSIONS
  · rw [if_neg (by push_neg; simpa using h), if_pos h]
  · rw [if_pos (by rw [Decidable.not_and_iff_or_not] at h; simpa using h), if_neg h]

/-- Claim C1 witness: a concrete accepted header and a concrete rejected
header, obtained from the validation theorem. -/
theorem c1_header_validation_witness :
    load_from_path_header (natToBytes4 0x0107F060 ++ natToBytes4 0x5008 ++ [9]) =
      some (HeaderOutcome.proceed 0x5008, 8) ∧
    load_from_path_header (natToBytes4 0x0107F060 ++ natToBytes4 0x5009 ++ [9]) =
      some (HeaderOutcome.CANCELLED, 8) := by
  constructor
  · exact ((c1_header_validation 0x0107F060 0x5008 [9] (by decide) (by decide)).1).trans
      (by decide)
  · exact ((c1_header_validation 0x0107F060 0x5009 [9] (by decide) (by decide)).1).trans
      (by decide)

/-! ## Claim C2 -/

/-- Claim C2: a Format B mesh entry whose decoded position pool or decoded
face list is empty produces exactly the fixed placeholder - the 8 unit-cube
corner vertices, the 12 wireframe edges, no faces - flagged as a bone
placeholder; an entry with non-empty positions and non-empty faces produces
a real mesh flagged as not a bone, whose vertex list is the (non-empty)
position pool and whose face list is non-empty - never a zero-geometry
real mesh. -/
theorem c2_placeholder_mesh (ps : List (ℚ × ℚ × ℚ))
    (fs : List (List Nat × List Nat × List Nat)) :
    ((ps = [] ∨ fs = []) →
      build_mesh_b ps fs = ⟨cube_verts, cube_edges, [], true⟩ ∧
      (build_mesh_b ps fs).verts.length = 8 ∧
      (build_mesh_b ps fs).edges.length = 12 ∧
      (build_mesh_b ps fs).faces = [] ∧
      (build_mesh_b ps fs).is_bip = true) ∧
    (ps ≠ [] → fs ≠ [] →
      (build_mesh_b ps fs).is_bip = false ∧
      (build_mesh_b ps fs).verts = ps ∧
      (build_mesh_b ps fs).verts ≠ [] ∧
      (build_mesh_b ps fs).faces ≠ []) := by
  constructor
  · intro h
    have hcond : ¬(0 < ps.length ∧ 0 < fs.length) := by
      rcases h with h | h <;> simp [h]
    rw [build_mesh_b, if_neg hcond]
    refine ⟨rfl, rfl, rfl, rfl, rfl⟩
  · intro hp hf
    have hcond : 0 < ps.length ∧ 0 < fs.length :=
      ⟨List.length_pos.mpr hp, List.length_pos.mpr hf⟩
    rw [build_mesh_b, if_pos hcond]
    exact ⟨rfl, rfl, hp, by simpa [List.map_eq_nil_iff] using hf⟩

/-- Claim C2 witness: the placeholder case at an empty position pool and
the real case at a one-vertex, one-face input. -/
theorem c2_placeholder_mesh_witness :
    build_mesh_b [] [([0, 1, 2], [0, 1, 2], [0, 1, 2])] =
      ⟨cube_verts, cube_edges, [], true⟩ ∧
    (build_mesh_b [(1, 2, 3)] [([0, 0, 0], [0, 0, 0], [0, 0, 0])]).is_bip
      = false := by
  constructor
  · exact ((c2_placeholder_mesh [] [([0, 1, 2], [0, 1, 2], [0, 1, 2])]).1
      (Or.inl rfl)).1
  · exact ((c2_placeholder_mesh [(1, 2, 3)] [([0, 0, 0], [0, 0, 0], [0, 0, 0])]).2
      (by simp) (by simp)).1

/-! ## Claim C3 -/

/-- Claim C3: a Format A face record whose third stored vertex index is 0
is emitted with the index triple rotated to (idx3, idx1, idx2) and the
three V-flipped UV pairs reordered by the same rotation; a record whose
third index is non-zero is emitted in stored order; in both cases each UV
pair keeps u, maps v to 1 - v and drops the third component. -/
theorem c3_face_rotation (i1 i2 i3 : Nat) (u1 v1 w1 u2 v2 w2 u3 v3 w3 : ℚ) :
    (i3 = 0 →
      load_face_a i1 i2 i3 (u1, v1, w1) (u2, v2, w2) (u3, v3, w3) =
        ((0, i1, i2), ((u3, 1 - v3), (u1, 1 - v1), (u2, 1 - v2)))) ∧
    (i3 ≠ 0 →
      load_face_a i1 i2 i3 (u1, v1, w1) (u2, v2, w2) (u3, v3, w3) =
        ((i1, i2, i3), ((u1, 1 - v1), (u2, 1 - v2), (u3, 1 - v3)))) := by
  constructor <;> intro h <;> simp [load_face_a, flip_uv, h]

/-- Claim C3 witness: both branches of the rotation at concrete inputs. -/
theorem c3_face_rotation_witness :
    load_face_a 4 5 0 (1, 2, 3) (4, 5, 6) (7, 8, 9) =
      ((0, 4, 5), ((7, -7), (1, -1), (4, -4))) ∧
    load_face_a 4 5 6 (1, 2, 3) (4, 5, 6) (7, 8, 9) =
      ((4, 5, 6), ((1, -1), (4, -4), (7, -7))) := by
  constructor
  · exact ((c3_face_rotation 4 5 0 1 2 3 4 5 6 7 8 9).1 rfl).trans (by norm_num)
  · exact ((c3_face_rotation 4 5 6 1 2 3 4 5 6 7 8 9).2 (by norm_num)).trans
      (by norm_num)

/-! ## Claim C4 -/

/-- Claim C4: for version above 0x500E and a non-zero second reserved
count, the decoder reads the 4 count bytes, records a warning, forces the
count to zero and continues from the byte directly after the count field -
the cursor is not advanced by count times 12 bytes and the decode is not
aborted. -/
theorem c4_reserved_count_recovery (version : Nat) (data : List Nat) (p : Nat)
    (hlen : p + 4 ≤ data.length) (hv : 0x500E < version)
    (hcnt : u32leList ((data.drop p).take 4) ≠ 0) :
    skip_second_reserved version ⟨data, p⟩ = some (⟨data, p + 4⟩, true) ∧
    p + 4 ≠ p + 4 + 12 * u32leList ((data.drop p).take 4) := by
  constructor
  · rw [skip_second_reserved, readU32,
      readExact_eq_of_le ⟨data, p⟩ 4 (by simpa using hlen)]
    simp only
    rw [if_pos ⟨hv, hcnt⟩]
    rfl
  · omega

/-- Claim C4 witness: a concrete anomalous buffer (version 0x500F, count
2): the cursor lands at offset 4, not at offset 28, with the warning
recorded. -/
theorem c4_reserved_count_recovery_witness :
    skip_second_reserved 0x500F ⟨[2, 0, 0, 0, 9, 9], 0⟩ =
      some (⟨[2, 0, 0, 0, 9, 9], 4⟩, true) ∧
    (0 : Nat) + 4 ≠ 0 + 4 + 12 * u32leList (([2, 0, 0, 0, 9, 9].drop 0).take 4) := by
  have h := c4_reserved_count_recovery 0x500F [2, 0, 0, 0, 9, 9] 0
    (by decide) (by decide) (by decide)
  exact ⟨h.1.trans (by decide), h.2⟩

/-! ## Claim C5 -/

/-- Appending a fresh element keeps a bucket duplicate-free. -/
theorem insertIfAbsent_nodup {l : List Nat} {i : Nat} (h : l.Nodup) :
    (insertIfAbsent l i).Nodup := by
  rw [insertIfAbsent]
  split
  · exact h
  · rename_i hni
    exact h.append (List.nodup_singleton i) (by simpa using hni)

/-- Invariant of one bone's weight table: every bucket has a strictly
positive weight and a duplicate-free vertex list. -/
theorem updWeight_ok {wl : List (ℚ × List Nat)} {w : ℚ} {i : Nat}
    (hw : 0 < w) (h : ∀ p ∈ wl, 0 < p.1 ∧ p.2.Nodup) :
    ∀ p ∈ updWeight wl w i, 0 < p.1 ∧ p.2.Nodup := by
  induction wl with
  | nil =>
    intro p hp
    simp only [updWeight, List.mem_singleton] at hp
    subst hp
    exact ⟨hw, List.nodup_singleton i⟩
  | cons hd tl ih =>
    intro p hp
    rw [updWeight] at hp
    split at hp
    · rcases List.mem_cons.mp hp with rfl | hmem
      · have hhd := h hd (List.mem_cons_self hd tl)
        exact ⟨hhd.1, insertIfAbsent_nodup hhd.2⟩
      · exact h p (List.mem_cons_of_mem hd hmem)
    · rcases List.mem_cons.mp hp with rfl | hmem
      · exact h hd (List.mem_cons_self hd tl)
      · exact ih (fun q hq => h q (List.mem_cons_of_mem hd hq)) p hmem

/-- Invariant of the whole influence map under one recorded influence. -/
theorem updBone_ok {m : Influences} {b : Nat} {w : ℚ} {i : Nat}
    (hw : 0 < w) (h : ∀ e ∈ m, ∀ p ∈ e.2, 0 < p.1 ∧ p.2.Nodup) :
    ∀ e ∈ updBone m b w i, ∀ p ∈ e.2, 0 < p.1 ∧ p.2.Nodup := by
  induction m with
  | nil =>
    intro e he
    simp only [updBone, List.mem_singleton] at he
    subst he
    intro p hp
    simp only [List.mem_singleton] at hp
    subst hp
    exact ⟨hw, List.nodup_singleton i⟩
  | cons hd tl ih =>
    intro e he
    rw [updBone] at he
    split at he
    · rcases List.mem_cons.mp he with rfl | hmem
      · exact updWeight_ok hw (h hd (List.mem_cons_self hd tl))
      · exact h e (List.mem_cons_of_mem hd hmem)
    · rcases List.mem_cons.mp he with rfl | hmem
      · exact h hd (List.mem_cons_self hd tl)
      · exact ih (fun q hq => h q (List.mem_cons_of_mem hd hq)) e hmem

/-- Invariant preservation by one influence record (weights not above 0
leave the map untouched). -/
theorem record_influence_ok {m : Influences} {i : Nat} {inf : Nat × ℚ}
    (h : ∀ e ∈ m, ∀ p ∈ e.2, 0 < p.1 ∧ p.2.Nodup) :
    ∀ e ∈ record_influence m i inf, ∀ p ∈ e.2, 0 < p.1 ∧ p.2.Nodup := by
  rw [record_influence]
  split
  · rename_i hw
    exact updBone_ok hw h
  · exact h

/-- Invariant preservation by one blend vertex's influence list. -/
theorem record_vertex_ok {i : Nat} (infs : List (Nat × ℚ)) :
    ∀ {m : Influences}, (∀ e ∈ m, ∀ p ∈ e.2, 0 < p.1 ∧ p.2.Nodup) →
      ∀ e ∈ record_vertex m i infs, ∀ p ∈ e.2, 0 < p.1 ∧ p.2.Nodup := by
  induction infs with
  | nil => intro m h; simpa [record_vertex] using h
  | cons hd tl ih =>
    intro m h
    rw [record_vertex] at *
    simpa using ih (record_influence_ok h)

/-- Invariant preservation by the whole blend-vertex loop. -/
theorem build_influences_go_ok (table : List (List (Nat × ℚ))) :
    ∀ (i : Nat) {m : Influences},
      (∀ e ∈ m, ∀ p ∈ e.2, 0 < p.1 ∧ p.2.Nodup) →
      ∀ e ∈ build_influences_go i m table, ∀ p ∈ e.2, 0 < p.1 ∧ p.2.Nodup := by
  induction table with
  | nil => intro i m h; simpa [build_influences_go] using h
  | cons hd tl ih =>
    intro i m h
    rw [build_influences_go]
    exact ih (i + 1) (record_vertex_ok hd h)

/-- Claim C5: every (bone index, weight, vertex list) bucket of the built
bone-influence map has a strictly positive weight (only influences with
weight above 0 are recorded) and a duplicate-free vertex list (a blend
vertex appears at most once per bucket); and the table with two weight-0
influences and one weight 3/5 influence yields the map holding only the
3/5 entry. -/
theorem c5_influence_map (table : List (List (Nat × ℚ))) :
    (∀ e ∈ build_bone_influences table, ∀ p ∈ e.2, 0 < p.1 ∧ p.2.Nodup) ∧
    build_bone_influences [[(3, 0), (4, 0), (5, 3/5)]] =
      [(5, [(3/5, [0])])] := by
  constructor
  · exact build_influences_go_ok table 0 (by simp)
  · norm_num [build_bone_influences, build_influences_go, record_vertex,
      record_influence, updBone, updWeight, insertIfAbsent]

/-- Claim C5 witness: the invariant read off at the concrete three-entry
table: the single recorded bucket has a positive weight and a
duplicate-free vertex list. -/
theorem c5_influence_map_witness :
    (0 : ℚ) < 3/5 ∧ ([0] : List Nat).Nodup := by
  have h := c5_influence_map [[(3, 0), (4, 0), (5, 3/5)]]
  refine h.1 (5, [(3/5, [0])]) ?_ (3/5, [0]) (List.mem_singleton.mpr rfl)
  rw [h.2]
  exact List.mem_singleton.mpr rfl

/-! ## Claim C6 -/

/-- Claim C6: the indexed-vertex table entry layout by version.  Versions
below 0x500E read five u16 fields (10 bytes) assigned in order (position,
normal, texcoord, reserved0, reserved1); version 0x500E reads
(u16, u16, u32, u16, u16) (12 bytes) assigned in order (position, normal,
reserved1, reserved0, texcoord), so the appended (position, normal,
texcoord, reserved0, reserved1) tuple takes its texcoord from the last u16
and its reserved1 from the u32; versions above 0x500E read
(u16, u16, u32, u16, u16) (12 bytes) assigned in order (position, normal,
texcoord, reserved0, reserved1). -/
theorem c6_vertex_index_layout (v b0 b1 b2 b3 b4 b5 b6 b7 b8 b9 b10 b11 : Nat)
    (tl : List Nat) :
    (v < 0x500E →
      read_vertex_index_entry v
          ⟨b0 :: b1 :: b2 :: b3 :: b4 :: b5 :: b6 :: b7 :: b8 :: b9 :: b10 :: b11 :: tl, 0⟩ =
        some ((u16le b0 b1, u16le b2 b3, u16le b4 b5, u16le b6 b7, u16le b8 b9),
          ⟨b0 :: b1 :: b2 :: b3 :: b4 :: b5 :: b6 :: b7 :: b8 :: b9 :: b10 :: b11 :: tl, 10⟩)) ∧
    (v = 0x500E →
      read_vertex_index_entry v
          ⟨b0 :: b1 :: b2 :: b3 :: b4 :: b5 :: b6 :: b7 :: b8 :: b9 :: b10 :: b11 :: tl, 0⟩ =
        some ((u16le b0 b1, u16le b2 b3, u16le b10 b11, u16le b8 b9, u32le b4 b5 b6 b7),
          ⟨b0 :: b1 :: b2 :: b3 :: b4 :: b5 :: b6 :: b7 :: b8 :: b9 :: b10 :: b11 :: tl, 12⟩)) ∧
    (0x500E < v →
      read_vertex_index_entry v
          ⟨b0 :: b1 :: b2 :: b3 :: b4 :: b5 :: b6 :: b7 :: b8 :: b9 :: b10 :: b11 :: tl, 0⟩ =
        some ((u16le b0 b1, u16le b2 b3, u32le b4 b5 b6 b7, u16le b8 b9, u16le b10 b11),
          ⟨b0 :: b1 :: b2 :: b3 :: b4 :: b5 :: b6 :: b7 :: b8 :: b9 :: b10 :: b11 :: tl, 12⟩)) := by
  refine ⟨fun h => ?_, fun h => ?_, fun h => ?_⟩
  · rw [read_vertex_index_entry, if_pos h]
    rfl
  · subst h
    rfl
  · rw [read_vertex_index_entry, if_neg (by omega), if_neg (by omega)]
    rfl

/-- Claim C6 witness: the three layouts evaluated on a concrete 12-byte
entry for versions 0x500B, 0x500E and 0x5011. -/
theorem c6_vertex_index_layout_witness :
    read_vertex_index_entry 0x500B
        ⟨[1, 0, 2, 0, 3, 0, 4, 0, 5, 0, 6, 0], 0⟩ =
      some ((1, 2, 3, 4, 5), ⟨[1, 0, 2, 0, 3, 0, 4, 0, 5, 0, 6, 0], 10⟩) ∧
    read_vertex_index_entry 0x500E
        ⟨[1, 0, 2, 0, 3, 0, 0, 0, 4, 0, 5, 0], 0⟩ =
      some ((1, 2, 5, 4, 3), ⟨[1, 0, 2, 0, 3, 0, 0, 0, 4, 0, 5, 0], 12⟩) ∧
    read_vertex_index_entry 0x5011
        ⟨[1, 0, 2, 0, 3, 0, 0, 0, 4, 0, 5, 0], 0⟩ =
      some ((1, 2, 3, 4, 5), ⟨[1, 0, 2, 0, 3, 0, 0, 0, 4, 0, 5, 0], 12⟩) := by
  refine ⟨?_, ?_, ?_⟩
  · exact ((c6_vertex_index_layout 0x500B 1 0 2 0 3 0 4 0 5 0 6 0 []).1
      (by decide)).trans (by decide)
  · exact ((c6_vertex_index_layout 0x500E 1 0 2 0 3 0 0 0 4 0 5 0 []).2.1
      rfl).trans (by decide)
  · exact ((c6_vertex_index_layout 0x5011 1 0 2 0 3 0 0 0 4 0 5 0 []).2.2
      (by decide)).trans (by decide)

/-! ## Claim C7 -/

set_option maxRecDepth 8192 in
/-- Claim C7, counterexample: at version 0x5006 - a version the claim
covers with its "at most 0x5006" range - each texture name occupies 256
bytes, not 40: decoding from a 512-byte buffer consumes all 512 bytes
(two 256-byte names), not 80. -/
theorem c7_counterexample :
    (0x5006 : Nat) ≤ 0x5006 ∧
    texNameLen 0x5006 = 256 ∧
    texNameLen 0x5006 ≠ 40 ∧
    load_elu_texture 0x5006 ⟨List.replicate 512 7, 0⟩ =
      some (List.replicate 256 7, ⟨List.replicate 512 7, 512⟩) := by
  refine ⟨by decide, by decide, by decide, by decide⟩

/-- Claim C7 (amended): each of the two texture names occupies exactly 40
bytes for versions strictly below 0x5006 and exactly 256 bytes for
versions 0x5006 and above; the decoder consumes both names' bytes (the
cursor advances by twice the name length) even though only the first
name's bytes appear in the result. -/
theorem c7_texture_names (version : Nat) (c : Cursor)
    (h : c.pos + 2 * texNameLen version ≤ c.data.length) :
    load_elu_texture version c =
      some ((c.data.drop c.pos).take (texNameLen version),
        ⟨c.data, c.pos + 2 * texNameLen version⟩) ∧
    (version < 0x5006 → texNameLen version = 40) ∧
    (0x5006 ≤ version → texNameLen version = 256) := by
  refine ⟨?_, fun hv => by rw [texNameLen, if_pos hv]; rfl,
    fun hv => by rw [texNameLen, if_neg (by omega)]; rfl⟩
  have h1 : readExact c (texNameLen version) =
      some ((c.data.drop c.pos).take (texNameLen version),
        ⟨c.data, c.pos + texNameLen version⟩) :=
    readExact_eq_of_le c (texNameLen version) (by omega)
  have h2 : readExact (⟨c.data, c.pos + texNameLen version⟩ : Cursor)
      (texNameLen version) =
      some ((c.data.drop (c.pos + texNameLen version)).take (texNameLen version),
        ⟨c.data, c.pos + texNameLen version + texNameLen version⟩) :=
    readExact_eq_of_le ⟨c.data, c.pos + texNameLen version⟩ (texNameLen version)
      (by simp only; omega)
  rw [load_elu_texture, h1]
  simp only [h2]
  have : c.pos + texNameLen version + texNameLen version =
      c.pos + 2 * texNameLen version := by omega
  rw [this]

/-- Claim C7 witness: a version below the boundary (0x5001) with 40-byte
names: 80 bytes consumed, the first 40 bound. -/
theorem c7_texture_names_witness :
    load_elu_texture 0x5001 ⟨List.replicate 80 3, 0⟩ =
      some (List.replicate 40 3, ⟨List.replicate 80 3, 80⟩) := by
  exact ((c7_texture_names 0x5001 ⟨List.replicate 80 3, 0⟩ (by decide)).1).trans
    (by decide)

/-! ## Claim C8 -/

/-- Claim C8: name classification is a total function of the name string
alone, and on any name the Bip grammar does not match it passes the name
through unchanged with 0 substitutions (the is-bone count is 0, i.e.
falsy); applying classification again to the returned display name again
returns it unchanged with 0 substitutions, so classification is idempotent
on the pass-through case. -/
theorem c8_classify_pass_through (s : String) (h : matchBip s.data = none) :
    elu_to_blender_name s = (s, 0) ∧
    (elu_to_blender_name s).2 = 0 ∧
    elu_to_blender_name (elu_to_blender_name s).1 =
      ((elu_to_blender_name s).1, 0) := by
  have h1 : elu_to_blender_name s = (s, 0) := by
    rw [elu_to_blender_name, h]
  refine ⟨h1, by rw [h1], ?_⟩
  rw [h1]
  exact h1

/-- Claim C8 witness: the non-matching name Head01 (no skeletal Bip
prefix) passes through unchanged with a 0 substitution count. -/
theorem c8_classify_pass_through_witness :
    elu_to_blender_name "Head01" = ("Head01", 0) ∧
    elu_to_blender_name "Head01" = (("Head01" : String), 0) ∧
    matchBip "Head01".data = none :=
  ⟨(c8_classify_pass_through "Head01" (by decide)).1,
   (c8_classify_pass_through "Head01" (by decide)).1, by decide⟩

/-! ## Claim C9 -/

/-- The pairing loop succeeds and pairs the j-th weight with the j-th name
whenever the weights do not outnumber the names from position `j` on. -/
theorem pair_weights_go_eq (bn : List String) :
    ∀ (ws : List ℚ) (j : Nat), j + ws.length ≤ bn.length →
      pair_weights_go j bn ws = some ((bn.drop j).zip ws) := by
  intro ws
  induction ws with
  | nil => intro j h; simp [pair_weights_go]
  | cons w ws ih =>
    intro j h
    have hj : j < bn.length := by simp at h; omega
    rw [pair_weights_go, List.getElem?_eq_getElem hj]
    simp only
    rw [ih (j + 1) (by simp at h ⊢; omega)]
    rw [List.drop_eq_getElem_cons hj, List.zip_cons_cons]
    rfl

/-- Claim C9: in a Format A bone-influence group the decoder pairs the
j-th strictly positive bone weight with the j-th non-empty classified bone
name; whenever the positive weights do not outnumber the non-empty names
the out-of-bounds branch is unreachable and the pairing is the positional
zip of the two kept lists; and the concrete group with an empty first bone
name but four positive weights indexes past the end of the name list
(modelled as the failing result). -/
theorem c9_bone_group_pairing (raw : List String) (ws : List ℚ)
    (h : (positive_weights ws).length ≤ (bone_names_of raw).length) :
    load_bone_group_a raw ws =
      some ((bone_names_of raw).zip (positive_weights ws)) ∧
    load_bone_group_a ["", "Head", "Neck", "Spine"] [1, 1, 1, 1] = none := by
  constructor
  · rw [load_bone_group_a,
      pair_weights_go_eq (bone_names_of raw) (positive_weights ws) 0
        (by omega)]
    rw [List.drop_zero]
  · decide

/-- Claim C9 witness: a concrete in-bounds group (two non-empty names, two
positive weights out of four) decodes to the positional pairing. -/
theorem c9_bone_group_pairing_witness :
    load_bone_group_a ["Head", "Neck", "", ""] [1, 0, 1, 0] =
      some [("Head", 1), ("Neck", 1)] := by
  exact ((c9_bone_group_pairing ["Head", "Neck", "", ""] [1, 0, 1, 0]
    (by decide)).1).trans (by decide)

/-! ## Claim C10 -/

/-- Claim C10, counterexample: the captured index "00" has integer value
0, yet it contributes the numeric suffix ".1000" (the multi-digit
below-ten branch fires for it): classifying Bip01Spine00 yields
ZBip_Spine.1000, not ZBip_Spine. -/
theorem c10_counterexample :
    elu_to_blender_name "Bip01Spine00" = ("ZBip_Spine.1000", 1) ∧
    digitsToNat "00".data = 0 ∧
    indexSuffix "00".data = ".1000".data ∧
    indexSuffix "00".data ≠ [] := by
  refine ⟨by decide, by decide, by decide, by decide⟩

/-- Claim C10 (amended): a captured index with value 0 contributes no
suffix only when it is a single digit (the capture "0"); a multi-digit
capture with value at most 9 - including value 0, such as "00" - is
emitted as a dot, a leading one, and the capture zero-padded to three
digits; every other capture with positive value is emitted as a dot plus
the capture zero-padded to three digits. -/
theorem c10_index_suffix (idx : List Char) :
    (idx.length ≤ 1 → digitsToNat idx = 0 → indexSuffix idx = []) ∧
    (1 < idx.length → digitsToNat idx < 10 →
      indexSuffix idx = '.' :: '1' :: padLeft3 idx) ∧
    (0 < digitsToNat idx → ¬(1 < idx.length ∧ digitsToNat idx < 10) →
      indexSuffix idx = '.' :: padLeft3 idx) ∧
    elu_to_blender_name "Bip01Spine0" = ("ZBip_Spine", 1) ∧
    elu_to_blender_name "Bip01Spine05" = ("ZBip_Spine.1005", 1) ∧
    elu_to_blender_name "Bip01Spine12" = ("ZBip_Spine.012", 1) := by
  refine ⟨?_, ?_, ?_, by decide, by decide, by decide⟩
  · intro h1 h2
    rw [indexSuffix, if_neg (by omega), if_neg (by omega)]
  · intro h1 h2
    rw [indexSuffix, if_pos ⟨h1, h2⟩]
  · intro h1 h2
    rw [indexSuffix, if_neg h2, if_pos h1]

/-- Claim C10 witness: the three branches of the suffix rule evaluated at
the captures "0", "07" and "123". -/
theorem c10_index_suffix_witness :
    indexSuffix "0".data = [] ∧
    indexSuffix "07".data = '.' :: '1' :: padLeft3 "07".data ∧
    indexSuffix "123".data = '.' :: padLeft3 "123".data :=
  ⟨((c10_index_suffix "0".data).1 (by decide) (by decide)),
   ((c10_index_suffix "07".data).2.1 (by decide) (by decide)),
   ((c10_index_suffix "123".data).2.2.1 (by decide) (by decide))⟩
